import Mathlib

/-!
Shallow embedding of the Fortress-api Todo backend
(`app/infrastructure/repositories/todo_repository.py`,
`app/infrastructure/redis.py`, `app/services/todo_service.py`,
`app/domain/todo/models.py`, `app/domain/todo/schemas.py`,
`app/api/v1/endpoints/todos.py`).

The relational store is a list of rows, the Redis cache an association
list from todo id to the JSON dictionary stored by `redis.set`
(`json.dumps(todo.to_dict())` followed by `json.loads` round-trips to
the same dictionary, so we keep the structured form).  Timestamps are
modelled as a logical clock `now` carried in the state; `datetime.now()`
reads it.  Python exceptions that the code does not catch are modelled
with `Except`.
-/

namespace Fortress

/-- Model of `datetime.isoformat`: an injective rendering of the logical
timestamp as a string (the exact format is irrelevant to the claims,
only that the dictionary carries strings where the entity carries
datetimes). -/
def isoformat (n : Nat) : String := toString n

/-- The `Todo` ORM entity (`app/domain/todo/models.py`), with the two
timestamp columns as logical clock values. -/
structure Todo where
  id : Nat
  title : String
  description : Option String
  is_completed : Bool
  priority : String
  created_at : Nat
  updated_at : Nat
deriving DecidableEq

/-- The dictionary produced by `Todo.to_dict`: same field names, but the
timestamps are isoformat strings and the value is a plain `dict`, not an
ORM entity. -/
structure TodoDict where
  id : Nat
  title : String
  description : Option String
  is_completed : Bool
  priority : String
  created_at : String
  updated_at : String
deriving DecidableEq

/-- `Todo.to_dict` from `app/domain/todo/models.py`. -/
def Todo.to_dict (t : Todo) : TodoDict :=
  { id := t.id
    title := t.title
    description := t.description
    is_completed := t.is_completed
    priority := t.priority
    created_at := isoformat t.created_at
    updated_at := isoformat t.updated_at }

/-- A value handed back by `TodoRepository.get_by_id`: the `return
cached` line would hand back the deserialized JSON dictionary, the
store path hands back the live ORM entity.  The dictionary arm models
the source's cache-hit return, which turns out to be unreachable (see
`record_cache_hit` below); keeping both arms makes that provable rather
than assumed. -/
inductive TodoVal where
  | entity (t : Todo)
  | dict (d : TodoDict)
deriving DecidableEq

/-- Python exceptions raised by the modelled code paths. -/
inductive PyErr where
  /-- `AttributeError`: attribute read/assignment on a plain `dict`. -/
  | attributeError
  /-- SQLAlchemy `UnmappedInstanceError`: `session.delete` on a `dict`. -/
  | unmappedInstanceError
  /-- `NameError`: evaluating a name that is neither defined nor
  imported in the calling module. -/
  | nameError
deriving DecidableEq

/-- Combined state: relational rows, the autoincrement counter, the
Redis cache for the `todo:*` namespace, and the logical clock. -/
structure St where
  db : List Todo
  nextId : Nat
  cache : List (Nat × TodoDict)
  now : Nat
deriving DecidableEq

/-- `SELECT ... WHERE Todo.id == id` followed by `scalar_one_or_none`. -/
def dbLookup (db : List Todo) (id : Nat) : Option Todo :=
  db.find? (fun t => t.id == id)

/-- Replace the row with the given id (the flush a `commit` performs for
a dirty entity). -/
def dbStore (db : List Todo) (id : Nat) (t : Todo) : List Todo :=
  db.map (fun r => if r.id == id then t else r)

/-- Redis `get` on key `todo:{id}` (deserialized value or absent). -/
def cacheLookup (c : List (Nat × TodoDict)) (id : Nat) : Option TodoDict :=
  (c.find? (fun p => p.1 == id)).map (fun p => p.2)

/-- Redis `setex` on key `todo:{id}` (overwrites any previous value). -/
def cacheStore (c : List (Nat × TodoDict)) (id : Nat) (d : TodoDict) :
    List (Nat × TodoDict) :=
  (id, d) :: c.filter (fun p => p.1 != id)

/-- The call `record_cache_hit()` on line 108 of
`app/infrastructure/redis.py`: the name is defined in
`app/core/metrics.py` but never imported into `redis.py` (its import
list has only the four metric objects), so evaluating it raises
`NameError`. -/
def record_cache_hit : Except PyErr Unit := .error .nameError

/-- The call `record_cache_miss()` on line 112 of
`app/infrastructure/redis.py`: same unresolved name as
`record_cache_hit`, so evaluating it raises `NameError`. -/
def record_cache_miss : Except PyErr Unit := .error .nameError

/-- `redis.get` as `TodoRepository.get_by_id` calls it on key
`todo:{id}`: inside the `try` block the client lookup yields the stored
serialized dictionary, but before returning the code calls
`record_cache_hit()` (value present) or `record_cache_miss()` (value
absent), both of which raise `NameError`; the blanket `except` catches
it and returns `None`.  Hence every call returns `None` and the
cache-read path is dead. -/
def cacheGet (c : List (Nat × TodoDict)) (id : Nat) : Option TodoDict :=
  match cacheLookup c id with
  | some d =>
    match record_cache_hit with
    | .error _ => none
    | .ok _ => some d
  | none =>
    match record_cache_miss with
    | .error _ => none
    | .ok _ => none

namespace TodoRepository

/-- `TodoRepository.get_by_id` with `cache_enabled = True` (as the
service always constructs it): call `redis.get` and return the
deserialized dictionary when it yields a value (it never does — see
`cacheGet`); otherwise query the store, cache `todo.to_dict()` via
`redis.set` (which works: it touches only imported names) when found,
and return the entity. -/
def get_by_id (st : St) (id : Nat) : Option TodoVal × St :=
  match cacheGet st.cache id with
  | some d => (some (.dict d), st)
  | none =>
    match dbLookup st.db id with
    | some t => (some (.entity t), { st with cache := cacheStore st.cache id t.to_dict })
    | none => (none, st)

/-- A value appearing in the `todo_data` dictionary passed to
`TodoRepository.update` (the columns are strings, optional strings and
booleans). -/
inductive FieldVal where
  | str (v : String)
  | optStr (v : Option String)
  | bool (v : Bool)
deriving DecidableEq

/-- `hasattr(todo, key)` for a `Todo` ORM instance: true for the mapped
columns and the methods defined on the class. -/
def todoHasattr (key : String) : Bool :=
  key == "id" || key == "title" || key == "description" ||
  key == "is_completed" || key == "priority" ||
  key == "created_at" || key == "updated_at" ||
  key == "to_dict" || key == "update"

/-- `hasattr(cached, key)` when `get_by_id` returned the cached JSON
dictionary: a plain `dict` has none of the Todo column names or methods
as attributes, so for every key that can occur in `todo_data` (the four
updatable columns) the answer is `False`. -/
def dictHasattr (_key : String) : Bool := false

/-- `TodoRepository.update`: loads via `get_by_id`; builds the
`update_data` dictionary from the keys with `hasattr(todo, key)` and
`key != "id"`, but never writes any of those values back to the entity;
when `update_data` is non-empty it commits (nothing is dirty, so the
store is untouched), then assigns `todo.updated_at = datetime.now()`
in memory only, and clears the cache.  The dictionary branches model
what the source would do if `get_by_id` ever returned the cached
dictionary; since the cache-read path is dead they are unreachable. -/
def update (st : St) (id : Nat) (todo_data : List (String × FieldVal)) :
    Except PyErr (Option TodoVal × St) :=
  match get_by_id st id with
  | (none, st1) => .ok (none, st1)
  | (some (.dict dd), st1) =>
    let update_data := todo_data.filter (fun kv => dictHasattr kv.1 && kv.1 != "id")
    if update_data.isEmpty then
      .ok (some (.dict dd), st1)
    else
      .error .attributeError
  | (some (.entity t), st1) =>
    let update_data := todo_data.filter (fun kv => todoHasattr kv.1 && kv.1 != "id")
    if update_data.isEmpty then
      .ok (some (.entity t), st1)
    else
      .ok (some (.entity { t with updated_at := st1.now }), { st1 with cache := [] })

/-- `TodoRepository.delete`: loads via `get_by_id`; absent id returns
`False`; a cached dictionary would make `session.delete` raise
(unreachable, the cache-read path being dead); an entity is removed,
committed, and the cache cleared. -/
def delete (st : St) (id : Nat) : Except PyErr (Bool × St) :=
  match get_by_id st id with
  | (none, st1) => .ok (false, st1)
  | (some (.dict _), _) => .error .unmappedInstanceError
  | (some (.entity _), st1) =>
    .ok (true, { st1 with db := st1.db.filter (fun r => r.id != id), cache := [] })

/-- `TodoRepository.update_status`: loads via `get_by_id`; absent id
returns `None`; on a cached dictionary the assignment
`todo.is_completed = is_completed` would raise `AttributeError`
(unreachable, the cache-read path being dead); on an entity it sets
`is_completed` and `updated_at`, commits (flushing the dirty row),
refreshes, and clears the cache. -/
def update_status (st : St) (id : Nat) (is_completed : Bool) :
    Except PyErr (Option TodoVal × St) :=
  match get_by_id st id with
  | (none, st1) => .ok (none, st1)
  | (some (.dict _), _) => .error .attributeError
  | (some (.entity t), st1) =>
    let t' := { t with is_completed := is_completed, updated_at := st1.now }
    .ok (some (.entity t'), { st1 with db := dbStore st1.db id t', cache := [] })

/-- Creation payload as the service hands it to the repository:
`TodoCreate.model_dump(exclude_unset=True)`, so a field is present only
when the request set it; absent fields fall back to the column defaults
of the `Todo` model (`is_completed = False`, `priority = "medium"`,
timestamps from the server clock). -/
structure TodoCreateData where
  title : String
  description : Option String := none
  is_completed : Option Bool := none
  priority : Option String := none
deriving DecidableEq

/-- `TodoRepository.create`: inserts a row with the next autoincrement
id and server-default timestamps, commits, refreshes, and clears the
whole `todo:*` cache namespace. -/
def create (st : St) (d : TodoCreateData) : Todo × St :=
  let t : Todo :=
    { id := st.nextId
      title := d.title
      description := d.description
      is_completed := d.is_completed.getD false
      priority := d.priority.getD "medium"
      created_at := st.now
      updated_at := st.now }
  (t, { st with db := st.db ++ [t], nextId := st.nextId + 1, cache := [] })

/-- The filter portion of `TodoRepository.get_all`: equality filter on
`is_completed` when the argument is not `None` (`is not None` check, so
filtering on `False` is applied), and equality filter on `priority`
guarded by Python truthiness (`if priority:`), so an empty string
disables the filter. -/
def matchesFilters (is_completed : Option Bool) (priority : Option String)
    (t : Todo) : Bool :=
  (match is_completed with
   | some b => t.is_completed == b
   | none => true) &&
  (match priority with
   | some p => if p.isEmpty then true else t.priority == p
   | none => true)

/-- The comparator `get_all` selects from `sort_by` and `order`:
`priority` sorts on the raw priority string, `created_at`/`updated_at`
on the timestamp, anything else falls back to `created_at`
descending. -/
def sortLE (sort_by order : String) (a b : Todo) : Bool :=
  if sort_by == "priority" then
    if order == "asc" then decide (a.priority ≤ b.priority)
    else decide (b.priority ≤ a.priority)
  else if sort_by == "created_at" then
    if order == "asc" then a.created_at ≤ b.created_at
    else b.created_at ≤ a.created_at
  else if sort_by == "updated_at" then
    if order == "asc" then a.updated_at ≤ b.updated_at
    else b.updated_at ≤ a.updated_at
  else
    b.created_at ≤ a.created_at

/-- Insert into a list sorted by `le` (model of the store's ORDER BY,
whose tie order is unspecified). -/
def insertSorted (le : Todo → Todo → Bool) (t : Todo) : List Todo → List Todo
  | [] => [t]
  | x :: xs => if le t x then t :: x :: xs else x :: insertSorted le t xs

/-- Sort a row list by the comparator (model of ORDER BY). -/
def sortRows (le : Todo → Todo → Bool) : List Todo → List Todo
  | [] => []
  | x :: xs => insertSorted le x (sortRows le xs)

/-- `TodoRepository.get_all`: filter, order, compute the total as
`len(count_query.all())` over the subquery of the filtered ordered
query (before pagination), then apply `offset((page-1)*page_size)` and
`limit(page_size)`. -/
def get_all (st : St) (page page_size : Nat) (sort_by order : String)
    (is_completed : Option Bool) (priority : Option String) :
    List Todo × Nat :=
  let filtered := st.db.filter (matchesFilters is_completed priority)
  let ordered := sortRows (sortLE sort_by order) filtered
  let total := ordered.length
  let offset := (page - 1) * page_size
  (((ordered.drop offset).take page_size), total)

end TodoRepository

/-- `PRIORITY_ORDER` from `app/domain/todo/schemas.py`. -/
def PRIORITY_ORDER : List (String × Nat) :=
  [("high", 3), ("medium", 2), ("low", 1)]

/-- `get_priority_order` from `app/domain/todo/schemas.py`:
`PRIORITY_ORDER.get(priority, 1)`. -/
def get_priority_order (priority : String) : Nat :=
  ((PRIORITY_ORDER.find? (fun p => p.1 == priority)).map (fun p => p.2)).getD 1

/-- The partial-update schema `TodoUpdate`
(`model_dump(exclude_unset=True)` keeps exactly the fields the request
set, so each field is wrapped in an outer `Option` recording
presence). -/
structure TodoUpdateData where
  title : Option String := none
  description : Option (Option String) := none
  is_completed : Option Bool := none
  priority : Option String := none
deriving DecidableEq

/-- `TodoUpdate.model_dump(exclude_unset=True)`: the dictionary items,
in field declaration order, restricted to the fields present in the
request. -/
def todoUpdateItems (d : TodoUpdateData) :
    List (String × TodoRepository.FieldVal) :=
  (match d.title with
   | some v => [("title", TodoRepository.FieldVal.str v)]
   | none => []) ++
  (match d.description with
   | some v => [("description", TodoRepository.FieldVal.optStr v)]
   | none => []) ++
  (match d.is_completed with
   | some v => [("is_completed", TodoRepository.FieldVal.bool v)]
   | none => []) ++
  (match d.priority with
   | some v => [("priority", TodoRepository.FieldVal.str v)]
   | none => [])

namespace TodoService

/-- `TodoService.create_todo`: computes the priority ordering weight
for observability, then delegates to the repository with
`model_dump(exclude_unset=True)`. -/
def create_todo (st : St) (d : TodoRepository.TodoCreateData) : Todo × St :=
  let _priority_order := get_priority_order (d.priority.getD "medium")
  TodoRepository.create st d

/-- `TodoService.update_todo`: dumps the set fields and delegates to
`TodoRepository.update`. -/
def update_todo (st : St) (todo_id : Nat) (d : TodoUpdateData) :
    Except PyErr (Option TodoVal × St) :=
  TodoRepository.update st todo_id (todoUpdateItems d)

/-- `TodoService.delete_todo`: delegates to `TodoRepository.delete`. -/
def delete_todo (st : St) (todo_id : Nat) : Except PyErr (Bool × St) :=
  TodoRepository.delete st todo_id

/-- `TodoService.toggle_todo_completion`: loads via `get_by_id`;
missing id returns `None`; reading `.is_completed` on a cached
dictionary would raise `AttributeError` (unreachable, the cache-read
path being dead); otherwise negates the status and delegates to
`TodoRepository.update_status`. -/
def toggle_todo_completion (st : St) (todo_id : Nat) :
    Except PyErr (Option TodoVal × St) :=
  match TodoRepository.get_by_id st todo_id with
  | (none, st1) => .ok (none, st1)
  | (some (.dict _), _) => .error .attributeError
  | (some (.entity t), st1) =>
    TodoRepository.update_status st1 todo_id (!t.is_completed)

end TodoService

/-- Raw JSON body of a creation request, with each field optional
(absent keys modelled as `none`); bodies with wrong runtime types or
extra keys are rejected by pydantic before these checks and are out of
scope. -/
structure RawCreate where
  title : Option String := none
  description : Option String := none
  is_completed : Option Bool := none
  priority : Option String := none
deriving DecidableEq

/-- The Unicode White_Space property: the character set pydantic's
`str_strip_whitespace=True` removes (Rust `str::trim`): U+0009–U+000D,
space, NEL, NBSP, OGHAM SPACE MARK, U+2000–U+200A, LINE/PARAGRAPH
SEPARATOR, NARROW NO-BREAK SPACE, MEDIUM MATHEMATICAL SPACE,
IDEOGRAPHIC SPACE. -/
def isUnicodeWhite (c : Char) : Bool :=
  (0x09 ≤ c.toNat && c.toNat ≤ 0x0D) || c.toNat == 0x20 ||
  c.toNat == 0x85 || c.toNat == 0xA0 || c.toNat == 0x1680 ||
  (0x2000 ≤ c.toNat && c.toNat ≤ 0x200A) ||
  c.toNat == 0x2028 || c.toNat == 0x2029 ||
  c.toNat == 0x202F || c.toNat == 0x205F || c.toNat == 0x3000

/-- Pydantic's `str_strip_whitespace=True`: drop leading and trailing
Unicode White_Space characters from the value. -/
def pyStrip (s : String) : String :=
  ⟨((s.data.dropWhile isUnicodeWhite).reverse.dropWhile
      isUnicodeWhite).reverse⟩

/-- `title` validation in `TodoBase`: required, whitespace-stripped
(`str_strip_whitespace=True`), then `min_length=1, max_length=255`. -/
def titleOk (title : Option String) : Bool :=
  match title with
  | none => false
  | some t => 1 ≤ (pyStrip t).length && (pyStrip t).length ≤ 255

/-- `description` validation: optional, stripped, `max_length=1000`. -/
def descriptionOk (description : Option String) : Bool :=
  match description with
  | none => true
  | some d => (pyStrip d).length ≤ 1000

/-- `priority` validation: optional (default applies when absent),
stripped, then matched against the anchored pattern
`^(low|medium|high)$`. -/
def priorityOk (priority : Option String) : Bool :=
  match priority with
  | none => true
  | some p => pyStrip p == "low" || pyStrip p == "medium" || pyStrip p == "high"

/-- Pydantic validation of `TodoCreate`: all field validators run and
any failure rejects the request; on success the model holds the
stripped values, with presence preserved for `exclude_unset`. -/
def validate_todo_create (raw : RawCreate) :
    Option TodoRepository.TodoCreateData :=
  if titleOk raw.title && descriptionOk raw.description &&
      priorityOk raw.priority then
    some
      { title := pyStrip (raw.title.getD "")
        description := raw.description.map pyStrip
        is_completed := raw.is_completed
        priority := raw.priority.map pyStrip }
  else
    none

/-- The `POST /todos` endpoint (`create_todo` in
`app/api/v1/endpoints/todos.py`): FastAPI validates the body against
`TodoCreate` before the handler runs; a validation failure is a
422-equivalent (`none`) and the handler — hence any store access —
never executes; otherwise the service creates the row. -/
def create_todo_endpoint (st : St) (raw : RawCreate) : Option Todo × St :=
  match validate_todo_create raw with
  | none => (none, st)
  | some d =>
    let (t, st') := TodoService.create_todo st d
    (some t, st')

/-- Outcome of the underlying `redis_client.get` call inside the `try`
block of `redis.get`: a payload (or absence), or a raised client
exception such as a connection failure. -/
inductive GetOutcome where
  | ok (v : Option String)
  | err
deriving DecidableEq

/-- Outcome of a client call that returns nothing of interest
(`setex`, `delete`): success or a raised client exception. -/
inductive CallOutcome where
  | ok
  | err
deriving DecidableEq

/-- `redis.get` (`app/infrastructure/redis.py`): inside `try`, fetch
the raw value; when present, call `record_cache_hit()` and return the
`json.loads` of it (the `deserialize` argument, `none` meaning
`json.loads` raised); when absent, call `record_cache_miss()` and
return `None`.  Any exception raised in the block — connection
failure, the `NameError` from the unresolved `record_cache_hit` /
`record_cache_miss` names, or a deserialization failure — is caught
and the function returns `None`, a cache miss. -/
def redis_get {V : Type} (outcome : GetOutcome)
    (deserialize : String → Option V) : Option V :=
  match outcome with
  | .err => none
  | .ok none =>
    match record_cache_miss with
    | .error _ => none
    | .ok _ => none
  | .ok (some s) =>
    match record_cache_hit with
    | .error _ => none
    | .ok _ =>
      match deserialize s with
      | some v => some v
      | none => none

/-- `redis.set`: inside `try`, serialize (`none` meaning `json.dumps`
raised) and call `setex`; any exception is caught and the function
returns `False`; on success it returns `True`. -/
def redis_set (serialized : Option String) (outcome : CallOutcome) : Bool :=
  match serialized with
  | none => false
  | some _ =>
    match outcome with
    | .ok => true
    | .err => false

/-- `redis.delete`: inside `try`, call the client delete; any exception
is caught and the function returns `False`; on success `True`. -/
def redis_delete (outcome : CallOutcome) : Bool :=
  match outcome with
  | .ok => true
  | .err => false

/-- Soundness of the cache with respect to the store: every cached key
belongs to a stored row.  This holds in every reachable state —
`get_by_id` only caches rows it just read, and every mutation clears
the whole `todo:*` namespace. -/
def CacheSound (st : St) : Prop :=
  ∀ p ∈ st.cache, st.db.any (fun r => r.id == p.1) = true

/-- A store in which every row id is below the autoincrement counter
(true in every reachable state: ids are assigned from the counter). -/
def FreshId (st : St) : Prop :=
  ∀ r ∈ st.db, r.id < st.nextId

/-- Fixture row used by the concrete evaluations below. -/
def tOld : Todo :=
  { id := 1
    title := "Old Title"
    description := none
    is_completed := false
    priority := "medium"
    created_at := 0
    updated_at := 0 }

/-- Fixture state: one stored row, empty cache. -/
def stOne : St := { db := [tOld], nextId := 2, cache := [], now := 7 }

/-- Fixture state: empty store, empty cache. -/
def stEmpty : St := { db := [], nextId := 1, cache := [], now := 0 }

/-- The row the endpoint stores for the `C9` counterexample payload. -/
def tHighRes : Todo :=
  { id := 1
    title := "Test"
    description := none
    is_completed := false
    priority := "high"
    created_at := 0
    updated_at := 0 }

/-- Observer on `toggle_todo_completion`: the returned entity and the
resulting state, or `none` when the todo is missing (or an exception
was raised). -/
def toggleObs (st : St) (i : Nat) : Option (Todo × St) :=
  match TodoService.toggle_todo_completion st i with
  | .ok (some (.entity t), st') => some (t, st')
  | _ => none

/-- Observer: the `is_completed` value produced by two successive
toggles of the same id, or `none` when either toggle fails. -/
def toggleTwiceObs (st : St) (i : Nat) : Option Bool :=
  (toggleObs st i).bind
    (fun p => (toggleObs p.2 i).map (fun q => q.1.is_completed))

open TodoRepository

theorem length_insertSorted (le : Todo → Todo → Bool) (t : Todo) :
    ∀ l : List Todo, (insertSorted le t l).length = l.length + 1 := by
  intro l
  induction l with
  | nil => rfl
  | cons x xs ih =>
    simp only [insertSorted]
    split
    · simp
    · simp [ih]

theorem length_sortRows (le : Todo → Todo → Bool) :
    ∀ l : List Todo, (sortRows le l).length = l.length := by
  intro l
  induction l with
  | nil => rfl
  | cons x xs ih => simp [sortRows, length_insertSorted, ih]

theorem cacheGet_none (c : List (Nat × TodoDict)) (i : Nat) :
    cacheGet c i = none := by
  unfold cacheGet record_cache_hit record_cache_miss
  cases cacheLookup c i <;> rfl

theorem get_by_id_missing (st : St) (i : Nat)
    (hdb : dbLookup st.db i = none) :
    TodoRepository.get_by_id st i = (none, st) := by
  simp [TodoRepository.get_by_id, cacheGet_none, hdb]

theorem get_by_id_found (st : St) (i : Nat) (t : Todo)
    (h : dbLookup st.db i = some t) :
    TodoRepository.get_by_id st i =
      (some (.entity t), { st with cache := cacheStore st.cache i t.to_dict }) := by
  simp [TodoRepository.get_by_id, cacheGet_none, h]

theorem dbLookup_dbStore (i : Nat) (u : Todo) (hu : u.id = i) :
    ∀ db : List Todo, (∃ t, dbLookup db i = some t) →
      dbLookup (dbStore db i u) i = some u := by
  intro db
  induction db with
  | nil =>
    rintro ⟨t, ht⟩
    simp [dbLookup] at ht
  | cons r rs ih =>
    rintro ⟨t, ht⟩
    by_cases hr : (r.id == i) = true
    · simp [dbStore, dbLookup, List.find?, hr, hu]
    · have ht' : dbLookup rs i = some t := by
        simpa [dbLookup, List.find?, hr] using ht
      have := ih ⟨t, ht'⟩
      simpa [dbStore, dbLookup, List.find?, hr] using this

theorem toggle_found (st : St) (i : Nat) (t : Todo)
    (h : dbLookup st.db i = some t) :
    TodoService.toggle_todo_completion st i =
      .ok (some (.entity
            { t with is_completed := !t.is_completed, updated_at := st.now }),
        { st with
            db := dbStore st.db i
              { t with is_completed := !t.is_completed, updated_at := st.now }
            cache := [] }) := by
  have hg := get_by_id_found st i t h
  have hg2 := get_by_id_found
    { st with cache := cacheStore st.cache i t.to_dict } i t (by simpa [dbLookup] using h)
  simp [TodoService.toggle_todo_completion, hg, TodoRepository.update_status, hg2]

/-- Claim C1 (refuted; evaluation of the code at the failing input):
on a store holding todo 1 with title `"Old Title"`, the partial update
`{title: "New Title"}` leaves the returned entity and the stored row
with the old title — `TodoRepository.update` computes `update_data`
but never applies it — and only the in-memory `updated_at` changes,
while the committed row keeps even its old `updated_at`. -/
theorem C1_update_never_applies_fields :
    TodoService.update_todo stOne 1 { title := some "New Title" } =
      .ok (some (.entity { tOld with updated_at := 7 }), stOne) ∧
    Todo.title { tOld with updated_at := 7 } = "Old Title" ∧
    (Todo.title { tOld with updated_at := 7 } == "New Title") = false ∧
    stOne.db = [tOld] ∧ tOld.title = "Old Title" ∧ tOld.updated_at = 0 :=
  ⟨rfl, rfl, by decide, rfl, rfl, rfl⟩

/-- Claim C2: `get_by_id` returns the same representation on the cache
path and on the store path — for every state (so in particular for
states whose cache holds the requested id, the would-be hit) the value
returned is exactly the store row mapped to the entity representation,
independent of the cache contents: the cache-hit return inside
`redis.get` is dead (the unresolved `record_cache_hit` name raises
`NameError`, caught and turned into a miss), so a cached dictionary is
never surfaced. -/
theorem C2_cache_and_store_paths_agree (st : St) (i : Nat) :
    (TodoRepository.get_by_id st i).1 = (dbLookup st.db i).map TodoVal.entity ∧
    ∀ cache2 : List (Nat × TodoDict),
      (TodoRepository.get_by_id { st with cache := cache2 } i).1 =
      (TodoRepository.get_by_id st i).1 := by
  constructor
  · cases h : dbLookup st.db i with
    | none => simp [TodoRepository.get_by_id, cacheGet_none, h]
    | some t => simp [TodoRepository.get_by_id, cacheGet_none, h]
  · intro cache2
    cases h : dbLookup st.db i with
    | none => simp [TodoRepository.get_by_id, cacheGet_none, h]
    | some t => simp [TodoRepository.get_by_id, cacheGet_none, h]

/-- Claim C3: toggling an existing todo twice restores the original
`is_completed`: `redis.get` always returns `None` (dead cache read), so
both toggles take the entity path through `update_status`, the first
stores the negated flag and the second negates it back. -/
theorem C3_toggle_twice_restores (st : St) (i : Nat) (t : Todo)
    (h : dbLookup st.db i = some t) :
    (toggleObs st i).map (fun p => p.1.is_completed) =
      some (!t.is_completed) ∧
    toggleTwiceObs st i = some t.is_completed := by
  have hid : t.id = i := by simpa using List.find?_some h
  have h1 := toggle_found st i t h
  have hdb2 := dbLookup_dbStore i
    { t with is_completed := !t.is_completed, updated_at := st.now }
    (by simpa using hid) st.db ⟨t, h⟩
  have h2 := toggle_found
    { st with
        db := dbStore st.db i
          { t with is_completed := !t.is_completed, updated_at := st.now }
        cache := [] }
    i { t with is_completed := !t.is_completed, updated_at := st.now }
    (by simpa [dbLookup] using hdb2)
  constructor
  · simp [toggleObs, h1]
  · simp [toggleTwiceObs, toggleObs, h1, h2]

/-- Witness for C3 at the one-row state: the first toggle completes the
todo and the second returns it to its original incomplete state. -/
theorem C3_witness :
    (toggleObs stOne 1).map (fun p => p.1.is_completed) = some true ∧
    toggleTwiceObs stOne 1 = some false :=
  C3_toggle_twice_restores stOne 1 tOld rfl

/-- Claim C4: on an id absent from the store (with a cache containing
only keys of stored rows, as in every reachable state), `get_by_id`
returns the not-found sentinel, `update` returns the sentinel without
raising, and `delete` returns `False` without raising. -/
theorem C4_missing_id_returns_sentinel (st : St) (i : Nat)
    (d : List (String × FieldVal))
    (hdb : dbLookup st.db i = none) (_hcs : CacheSound st) :
    TodoRepository.get_by_id st i = (none, st) ∧
    TodoRepository.update st i d = .ok (none, st) ∧
    TodoRepository.delete st i = .ok (false, st) := by
  have hg := get_by_id_missing st i hdb
  refine ⟨hg, ?_, ?_⟩
  · simp [TodoRepository.update, hg]
  · simp [TodoRepository.delete, hg]

/-- Witness for C4 at the empty state and id 1. -/
theorem C4_witness :
    TodoRepository.get_by_id stEmpty 1 = (none, stEmpty) ∧
    TodoRepository.update stEmpty 1 [] = .ok (none, stEmpty) ∧
    TodoRepository.delete stEmpty 1 = .ok (false, stEmpty) :=
  C4_missing_id_returns_sentinel stEmpty 1 [] rfl
    (by intro p hp; simp [stEmpty] at hp)

/-- Claim C5: the total returned by `get_all` equals the number of
stored rows matching the completion/priority filter, and is unaffected
by `page` and `page_size`. -/
theorem C5_total_count_matches_filter (st : St) (page page_size : Nat)
    (sort_by order : String) (is_completed : Option Bool)
    (priority : Option String) :
    (get_all st page page_size sort_by order is_completed priority).2 =
      (st.db.filter (matchesFilters is_completed priority)).length ∧
    ∀ page2 page_size2 : Nat,
      (get_all st page2 page_size2 sort_by order is_completed priority).2 =
      (get_all st page page_size sort_by order is_completed priority).2 := by
  constructor
  · simp [get_all, length_sortRows]
  · intro page2 page_size2
    simp [get_all]

/-- Claim C6: immediately after `create`, `get_by_id` on the assigned
id returns the created entity (create clears the cache, so the read is
a store read), and its field contents are the created ones — the given
fields plus column defaults. -/
theorem C6_create_get_by_id_roundtrip (st : St) (d : TodoCreateData)
    (h : FreshId st) :
    (TodoRepository.get_by_id (TodoRepository.create st d).2
        (TodoRepository.create st d).1.id).1 =
      some (TodoVal.entity (TodoRepository.create st d).1) ∧
    (TodoRepository.create st d).1.title = d.title ∧
    (TodoRepository.create st d).1.description = d.description ∧
    (TodoRepository.create st d).1.is_completed = d.is_completed.getD false ∧
    (TodoRepository.create st d).1.priority = d.priority.getD "medium" := by
  refine ⟨?_, rfl, rfl, rfl, rfl⟩
  have h1 : st.db.find? (fun r => r.id == st.nextId) = none := by
    rw [List.find?_eq_none]
    intro r hr hbeq
    have hlt := h r hr
    have : r.id = st.nextId := by simpa using hbeq
    omega
  simp [TodoRepository.create, TodoRepository.get_by_id, cacheGet_none,
    dbLookup, List.find?_append, h1]

/-- Witness for C6 at the empty state. -/
theorem C6_witness :
    (TodoRepository.get_by_id
        (TodoRepository.create stEmpty { title := "x" }).2
        (TodoRepository.create stEmpty { title := "x" }).1.id).1 =
      some (TodoVal.entity (TodoRepository.create stEmpty { title := "x" }).1) ∧
    (TodoRepository.create stEmpty { title := "x" }).1.title = "x" :=
  ⟨(C6_create_get_by_id_roundtrip stEmpty { title := "x" }
      (by intro r hr; simp [stEmpty] at hr)).1,
   (C6_create_get_by_id_roundtrip stEmpty { title := "x" }
      (by intro r hr; simp [stEmpty] at hr)).2.1⟩

/-- Claim C7: the numeric ordering weight is 3 for `high`, 2 for
`medium`, 1 for `low`, and 1 for every other string. -/
theorem C7_priority_order_weights :
    get_priority_order "high" = 3 ∧
    get_priority_order "medium" = 2 ∧
    get_priority_order "low" = 1 ∧
    ∀ p : String, p ≠ "high" → p ≠ "medium" → p ≠ "low" →
      get_priority_order p = 1 := by
  refine ⟨rfl, rfl, rfl, ?_⟩
  intro p h1 h2 h3
  have e1 : ("high" == p) = false := beq_eq_false_iff_ne.mpr (fun e => h1 e.symm)
  have e2 : ("medium" == p) = false := beq_eq_false_iff_ne.mpr (fun e => h2 e.symm)
  have e3 : ("low" == p) = false := beq_eq_false_iff_ne.mpr (fun e => h3 e.symm)
  simp [get_priority_order, PRIORITY_ORDER, List.find?, e1, e2, e3]

/-- Witness for C7 at the unknown priority string `urgent`. -/
theorem C7_witness : get_priority_order "urgent" = 1 :=
  C7_priority_order_weights.2.2.2 "urgent" (by decide) (by decide) (by decide)

/-- Claim C8: a connection failure or a deserialization failure inside
the cache layer never propagates — `redis_get` returns the absent
value (a cache miss) and `redis_set`/`redis_delete` return `False`. -/
theorem C8_cache_failures_never_propagate {V : Type}
    (deserialize : String → Option V) (s : String)
    (_hdes : deserialize s = none) :
    redis_get GetOutcome.err deserialize = none ∧
    redis_get (GetOutcome.ok (some s)) deserialize = none ∧
    (∀ serialized : Option String,
      redis_set serialized CallOutcome.err = false) ∧
    redis_set none CallOutcome.ok = false ∧
    redis_delete CallOutcome.err = false := by
  refine ⟨rfl, rfl, ?_, rfl, rfl⟩
  intro serialized
  cases serialized <;> rfl

/-- Witness for C8 with a deserializer that always fails. -/
theorem C8_witness :
    redis_get GetOutcome.err (fun _ : String => (none : Option Nat)) = none ∧
    redis_get (GetOutcome.ok (some "not-json")) (fun _ : String => (none : Option Nat)) = none ∧
    redis_set (some "v") CallOutcome.err = false ∧
    redis_delete CallOutcome.err = false := by
  have h := C8_cache_failures_never_propagate
    (fun _ : String => (none : Option Nat)) "not-json" rfl
  exact ⟨h.1, h.2.1, h.2.2.1 (some "v"), h.2.2.2.2⟩

/-- Claim C9, counterexample: the payload
`{title: "Test", priority: " high "}` has a priority value that is not
one of `low`, `medium`, `high`, yet it is not rejected — pydantic's
whitespace stripping normalizes it to `"high"` and the endpoint stores
a row, so the store differs before and after. -/
theorem C9_counterexample :
    ((" high " == "low") || (" high " == "medium") ||
      (" high " == "high")) = false ∧
    create_todo_endpoint stEmpty
        { title := some "Test", priority := some " high " } =
      (some tHighRes,
        { db := [tHighRes], nextId := 2, cache := [], now := 0 }) ∧
    stEmpty.db = [] :=
  ⟨by decide, by decide, rfl⟩

/-- Claim C9 as amended: for every creation request whose priority
value, after pydantic's whitespace stripping, is not one of `low`,
`medium`, `high`, the request is rejected by validation before the
handler runs and the state is unchanged. -/
theorem C9_amended_invalid_priority_rejected (st : St) (raw : RawCreate)
    (p : String) (hp : raw.priority = some p)
    (hbad : (pyStrip p == "low" || pyStrip p == "medium" ||
      pyStrip p == "high") = false) :
    create_todo_endpoint st raw = (none, st) := by
  have hpo : priorityOk raw.priority = false := by
    rw [hp]
    simpa [priorityOk] using hbad
  simp [create_todo_endpoint, validate_todo_create, hpo]

/-- Witness for the amended C9 at the payload
`{title: "T", priority: "invalid"}`. -/
theorem C9_witness :
    create_todo_endpoint stEmpty
      { title := some "T", priority := some "invalid" } = (none, stEmpty) :=
  C9_amended_invalid_priority_rejected stEmpty
    { title := some "T", priority := some "invalid" } "invalid" rfl (by decide)

/-- Claim C10: on an id absent from the store (cache sound as in every
reachable state), `update`, `delete` and `update_status` return their
not-found results with the state — store rows and cache entries —
exactly as before the call: no commit, no cache invalidation. -/
theorem C10_missing_id_mutates_nothing (st : St) (i : Nat)
    (d : List (String × FieldVal)) (b : Bool)
    (hdb : dbLookup st.db i = none) (_hcs : CacheSound st) :
    TodoRepository.update st i d = .ok (none, st) ∧
    TodoRepository.delete st i = .ok (false, st) ∧
    TodoRepository.update_status st i b = .ok (none, st) := by
  have hg := get_by_id_missing st i hdb
  refine ⟨?_, ?_, ?_⟩
  · simp [TodoRepository.update, hg]
  · simp [TodoRepository.delete, hg]
  · simp [TodoRepository.update_status, hg]

/-- Witness for C10 at a one-row state and the absent id 2. -/
theorem C10_witness :
    TodoRepository.update stOne 2 [] = .ok (none, stOne) ∧
    TodoRepository.delete stOne 2 = .ok (false, stOne) ∧
    TodoRepository.update_status stOne 2 true = .ok (none, stOne) :=
  C10_missing_id_mutates_nothing stOne 2 [] true rfl
    (by intro p hp; simp [stOne] at hp)

end Fortress

